import Mathlib

/-!
Shallow embedding of the `postured` layer-shell helper
(src/layer-shell-helper/{main.cpp, overlaywindow.cpp, overlaywindow.h}).

The helper is a Qt program: `main` enumerates screens, creates one
`OverlayWindow` per screen, prints a one-line compact-JSON readiness message,
then processes newline-delimited JSON commands from stdin
(`set_opacity` broadcast, `quit`).  `OverlayWindow` stores a clamped opacity
`m_opacity` and paints `QColor(0, 0, 0, int(m_opacity * MAX_OPACITY * 255))`.

Doubles are modelled as rationals; the C++ `int(...)` cast is truncation
toward zero.  Qt library semantics that the code relies on are embedded where
used and documented at the corresponding definition (QJsonValue defaults,
QJsonObject sorted-key storage, qBound).
-/

/-- A JSON value, as held by Qt's QJsonValue (numbers modelled as rationals). -/
inductive Json where
  | null
  | bool (b : Bool)
  | num (q : ℚ)
  | str (s : String)
  | arr (elems : List Json)
  | obj (fields : List (String × Json))

/-- QJsonDocument::fromJson(...).object(): the fields of the parsed document
when it is a JSON object; an invalid document (parse failure, modelled as
`none`) or a non-object document yields the empty object. -/
def docObject : Option Json → List (String × Json)
  | some (Json.obj fields) => fields
  | _ => []

/-- QJsonObject subscript `obj[key]`: the value at `key`, or QJsonValue's
Undefined (modelled as `none`) when the key is absent. -/
def objGet (fields : List (String × Json)) (key : String) : Option Json :=
  (fields.find? (fun p => p.1 == key)).map Prod.snd

/-- QJsonValue::toString(): the string when the value is a JSON string,
otherwise the default empty string (also for Undefined). -/
def jsonToString : Option Json → String
  | some (Json.str s) => s
  | _ => ""

/-- QJsonValue::toDouble(): the number when the value is a JSON number,
otherwise the default 0 (also for Undefined and non-numeric values). -/
def jsonToDouble : Option Json → ℚ
  | some (Json.num q) => q
  | _ => 0

/-- Qt's qBound(lo, x, hi) = qMax(lo, qMin(hi, x)). -/
def qBound (lo x hi : ℚ) : ℚ := max lo (min hi x)

/-- The C++ cast `int(d)` of a floating-point value: truncation toward zero. -/
def truncInt (q : ℚ) : ℤ := if 0 ≤ q then ⌊q⌋ else ⌈q⌉

/-- OverlayWindow::MAX_OPACITY = 0.85 (overlaywindow.h). -/
def MAX_OPACITY : ℚ := 85 / 100

/-- A connected display (QScreen), identified by its name. -/
structure Screen where
  name : String
deriving Repr, DecidableEq

/-- The state of one OverlayWindow: the screen it was created on and the
stored opacity field `m_opacity` (overlaywindow.h). -/
structure OverlayWindow where
  screenName : String
  m_opacity : ℚ
deriving Repr, DecidableEq

/-- OverlayWindow::OverlayWindow(screen): binds the window to the screen;
`m_opacity` keeps its member initializer 0.0. -/
def OverlayWindow.create (screen : Screen) : OverlayWindow :=
  { screenName := screen.name, m_opacity := 0 }

/-- OverlayWindow::setOpacity(level): `m_opacity = qBound(0.0, level, 1.0)`
and schedule a repaint (overlaywindow.cpp lines 29-32). -/
def OverlayWindow.setOpacity (w : OverlayWindow) (level : ℚ) : OverlayWindow :=
  { w with m_opacity := qBound 0 level 1 }

/-- An RGBA color with integer channels, as passed to QColor(r, g, b, a). -/
structure FillColor where
  r : ℤ
  g : ℤ
  b : ℤ
  a : ℤ
deriving Repr, DecidableEq

/-- OverlayWindow::paintEvent: fills the whole rect with
`QColor(0, 0, 0, int(m_opacity * MAX_OPACITY * 255))`
(overlaywindow.cpp lines 34-37). -/
def OverlayWindow.paintEvent (w : OverlayWindow) : FillColor :=
  { r := 0, g := 0, b := 0, a := truncInt (w.m_opacity * MAX_OPACITY * 255) }

/-- The 8-bit alpha of the fill the window paints. -/
def OverlayWindow.fillAlpha (w : OverlayWindow) : ℤ :=
  (w.paintEvent).a

/-- JSON string escaping as performed by QJsonDocument::toJson for the
characters this program can emit (monitor names). -/
def escapeChar (c : Char) : String :=
  if c = '"' then "\\\""
  else if c = '\\' then "\\\\"
  else if c = '\n' then "\\n"
  else if c = '\r' then "\\r"
  else if c = '\t' then "\\t"
  else String.singleton c

/-- Escape every character of a string for JSON output. -/
def escapeStr (s : String) : String :=
  String.join (s.toList.map escapeChar)

mutual

/-- QJsonDocument::toJson(QJsonDocument::Compact): compact serialization, no
whitespace.  (The only document this program serializes is the readiness
object, which holds strings and a string array; numbers never reach the
serializer, and are rendered from their rational value.) -/
def Json.ser : Json → String
  | .null => "null"
  | .bool b => cond b "true" "false"
  | .num q => if q.den = 1 then toString q.num else toString q
  | .str s => "\"" ++ escapeStr s ++ "\""
  | .arr xs => "[" ++ Json.serElems xs ++ "]"
  | .obj fs => "\x7b" ++ Json.serFields fs ++ "\x7d"

/-- Comma-separated serialization of array elements. -/
def Json.serElems : List Json → String
  | [] => ""
  | [x] => Json.ser x
  | x :: y :: rest => Json.ser x ++ "," ++ Json.serElems (y :: rest)

/-- Comma-separated serialization of object members, in stored order. -/
def Json.serFields : List (String × Json) → String
  | [] => ""
  | [(k, v)] => "\"" ++ escapeStr k ++ "\":" ++ Json.ser v
  | (k, v) :: f :: rest =>
      "\"" ++ escapeStr k ++ "\":" ++ Json.ser v ++ "," ++ Json.serFields (f :: rest)

end

/-- QJsonObject::insert (the effect of `obj["key"] = value`): QJsonObject
stores its members sorted by key (both Qt 5 and Qt 6 keep the entries in
alphabetical key order, so serialization emits keys alphabetically), and an
existing key has its value replaced. -/
def objInsert (k : String) (v : Json) : List (String × Json) → List (String × Json)
  | [] => [(k, v)]
  | (k1, v1) :: rest =>
      if k = k1 then (k, v) :: rest
      else if k < k1 then (k, v) :: (k1, v1) :: rest
      else (k1, v1) :: objInsert k v rest

/-- The readiness QJsonObject built in main.cpp lines 24-27:
`ready["status"] = "ready"` then `ready["monitors"] = <names>`. -/
def readyObject (monitorNames : List String) : List (String × Json) :=
  objInsert "monitors" (Json.arr (monitorNames.map Json.str))
    (objInsert "status" (Json.str "ready") [])

/-- The readiness line written to stdout and flushed (main.cpp lines 28-30):
compact JSON of the readiness object followed by a newline. -/
def readyLine (monitorNames : List String) : String :=
  Json.ser (Json.obj (readyObject monitorNames)) ++ "\n"

/-- The windows created at startup, one per screen in enumeration order
(main.cpp lines 18-22). -/
def startupWindows (screens : List Screen) : List OverlayWindow :=
  screens.map OverlayWindow.create

/-- Result of one activation of the stdin notifier: the window list after the
line was handled, whether QApplication::quit() was called, and the lines the
handler wrote to stdout (the handler writes nothing). -/
structure StepResult where
  windows : List OverlayWindow
  quitRequested : Bool
  output : List String
deriving Repr, DecidableEq

/-- One activation of the stdin handler (main.cpp lines 35-51): read a line;
an empty line (including end-of-stream) returns immediately; otherwise the
line is parsed via `parse` (modelling QJsonDocument::fromJson on this line's
UTF-8 bytes), `cmd["cmd"].toString()` selects the action, `set_opacity`
broadcasts `setOpacity(cmd["value"].toDouble())` to every window, `quit`
calls QApplication::quit(), anything else is ignored. -/
def handleLine (parse : String → Option Json) (line : String)
    (windows : List OverlayWindow) : StepResult :=
  if line.isEmpty then { windows := windows, quitRequested := false, output := [] }
  else
    let cmd := docObject (parse line)
    let action := jsonToString (objGet cmd "cmd")
    if action = "set_opacity" then
      let value := jsonToDouble (objGet cmd "value")
      { windows := windows.map (fun w => w.setOpacity value),
        quitRequested := false, output := [] }
    else if action = "quit" then
      { windows := windows, quitRequested := true, output := [] }
    else
      { windows := windows, quitRequested := false, output := [] }

/-- The event loop's command phase over a stream of stdin lines: each line is
handled in order; once quit is requested the loop exits and no further line
is read.  Returns the final window list. -/
def processLines (parse : String → Option Json) :
    List String → List OverlayWindow → List OverlayWindow
  | [], ws => ws
  | l :: ls, ws =>
    let r := handleLine parse l ws
    if r.quitRequested then r.windows else processLines parse ls r.windows

/-- Observable events of one run, for ordering properties. -/
inductive Event where
  | createdSurface (name : String)
  | emittedReady (monitors : List String)
  | processedCommand (line : String)
  | quitted
deriving Repr, DecidableEq

/-- Whether an event is the readiness notice. -/
def Event.isReady : Event → Bool
  | .emittedReady _ => true
  | _ => false

/-- Whether an event belongs to the command phase. -/
def Event.isCommand : Event → Bool
  | .processedCommand _ => true
  | .quitted => true
  | _ => false

/-- Events of the command phase: one `processedCommand` per line read, then
`quitted` when quit is requested, after which no further line is read. -/
def commandTrace (parse : String → Option Json) :
    List String → List OverlayWindow → List Event
  | [], _ => []
  | l :: ls, ws =>
    let r := handleLine parse l ws
    if r.quitRequested then [Event.processedCommand l, Event.quitted]
    else Event.processedCommand l :: commandTrace parse ls r.windows

/-- The event trace of a whole run of main: create one surface per screen in
enumeration order, emit the readiness notice listing the screen names in that
order, then process commands. -/
def runTrace (screens : List Screen) (parse : String → Option Json)
    (lines : List String) : List Event :=
  screens.map (fun s => Event.createdSurface s.name)
    ++ Event.emittedReady (screens.map Screen.name)
      :: commandTrace parse lines (startupWindows screens)

theorem qBound_nonneg (v : ℚ) : 0 ≤ qBound 0 v 1 :=
  le_max_left _ _

theorem qBound_le_one (v : ℚ) : qBound 0 v 1 ≤ 1 :=
  max_le zero_le_one (min_le_left _ _)

theorem qBound_eq_self {v : ℚ} (h0 : 0 ≤ v) (h1 : v ≤ 1) : qBound 0 v 1 = v := by
  unfold qBound
  rw [min_eq_right h1, max_eq_right h0]

theorem qBound_of_neg {v : ℚ} (h : v < 0) : qBound 0 v 1 = 0 := by
  unfold qBound
  rw [min_eq_right (le_trans h.le zero_le_one), max_eq_left h.le]

theorem qBound_of_gt_one {v : ℚ} (h : 1 < v) : qBound 0 v 1 = 1 := by
  unfold qBound
  rw [min_eq_left h.le, max_eq_right zero_le_one]

/-- C1: every OverlayWindow's stored dimming level is in [0,1]: it is 0 at
creation, and after setOpacity(value) for any real value the stored
`m_opacity` equals value clamped into [0,1] (0 below 0, 1 above 1), before
any fill computation uses it. -/
theorem C1_dimming_level_clamped (scr : Screen) (w : OverlayWindow) (value : ℚ) :
    (0 ≤ (OverlayWindow.create scr).m_opacity ∧ (OverlayWindow.create scr).m_opacity ≤ 1)
    ∧ (w.setOpacity value).m_opacity = qBound 0 value 1
    ∧ 0 ≤ (w.setOpacity value).m_opacity
    ∧ (w.setOpacity value).m_opacity ≤ 1
    ∧ (value < 0 → (w.setOpacity value).m_opacity = 0)
    ∧ (1 < value → (w.setOpacity value).m_opacity = 1) := by
  refine ⟨⟨le_refl 0, zero_le_one⟩, rfl, qBound_nonneg value, qBound_le_one value, ?_, ?_⟩
  · intro h
    exact qBound_of_neg h
  · intro h
    exact qBound_of_gt_one h

/-- C1 witness: setOpacity(-1/2) stores 0 and setOpacity(2) stores 1. -/
theorem C1_dimming_level_clamped_witness :
    ((OverlayWindow.create ⟨"DP-1"⟩).setOpacity (-1/2)).m_opacity = 0
    ∧ ((OverlayWindow.create ⟨"DP-1"⟩).setOpacity 2).m_opacity = 1 :=
  ⟨(C1_dimming_level_clamped ⟨"DP-1"⟩ (OverlayWindow.create ⟨"DP-1"⟩) (-1/2)).2.2.2.2.1
      (by norm_num),
   (C1_dimming_level_clamped ⟨"DP-1"⟩ (OverlayWindow.create ⟨"DP-1"⟩) 2).2.2.2.2.2
      (by norm_num)⟩

/-- C2: a redraw fills the surface with RGB black at 8-bit alpha
`m_opacity * 0.85 * 255` (exactly its integer truncation, hence within one
unit of the real product); for any value in [0,1] sent via setOpacity the
alpha is the truncation of value * 0.85 * 255; value 1/2 yields alpha 108 and
a clamped value of 1 yields alpha 216. -/
theorem C2_fill_alpha (w : OverlayWindow) (value : ℚ)
    (h0 : 0 ≤ value) (h1 : value ≤ 1) :
    (w.paintEvent.r = 0 ∧ w.paintEvent.g = 0 ∧ w.paintEvent.b = 0)
    ∧ (0 ≤ w.m_opacity →
        ((w.fillAlpha : ℚ) ≤ w.m_opacity * MAX_OPACITY * 255
          ∧ w.m_opacity * MAX_OPACITY * 255 - 1 < (w.fillAlpha : ℚ)))
    ∧ (w.setOpacity value).fillAlpha = truncInt (value * MAX_OPACITY * 255)
    ∧ ((OverlayWindow.create ⟨"DP-1"⟩).setOpacity (1/2)).fillAlpha = 108
    ∧ ((OverlayWindow.create ⟨"DP-1"⟩).setOpacity 1).fillAlpha = 216 := by
  refine ⟨⟨rfl, rfl, rfl⟩, ?_, ?_, ?_, ?_⟩
  · intro hm
    have hx : (0 : ℚ) ≤ w.m_opacity * MAX_OPACITY * 255 := by
      have : (0 : ℚ) ≤ MAX_OPACITY := by norm_num [MAX_OPACITY]
      positivity
    have hfa : w.fillAlpha = ⌊w.m_opacity * MAX_OPACITY * 255⌋ := by
      simp only [OverlayWindow.fillAlpha, OverlayWindow.paintEvent, truncInt, if_pos hx]
    rw [hfa]
    exact ⟨Int.floor_le _, Int.sub_one_lt_floor _⟩
  · show truncInt (qBound 0 value 1 * MAX_OPACITY * 255)
        = truncInt (value * MAX_OPACITY * 255)
    rw [qBound_eq_self h0 h1]
  · show truncInt (qBound 0 (1/2) 1 * MAX_OPACITY * 255) = 108
    rw [qBound_eq_self (by norm_num) (by norm_num), truncInt, if_pos (by norm_num [MAX_OPACITY])]
    norm_num [MAX_OPACITY]
  · show truncInt (qBound 0 1 1 * MAX_OPACITY * 255) = 216
    rw [qBound_eq_self (by norm_num) (by norm_num), truncInt, if_pos (by norm_num [MAX_OPACITY])]
    norm_num [MAX_OPACITY]

theorem foldl_opacity_mem (levels : List ℚ) :
    ∀ w : OverlayWindow, 0 ≤ w.m_opacity → w.m_opacity ≤ 1 →
      0 ≤ (List.foldl OverlayWindow.setOpacity w levels).m_opacity
      ∧ (List.foldl OverlayWindow.setOpacity w levels).m_opacity ≤ 1 := by
  induction levels with
  | nil => exact fun w h0 h1 => ⟨h0, h1⟩
  | cons v ls ih =>
    intro w h0 h1
    simp only [List.foldl_cons]
    exact ih (w.setOpacity v) (qBound_nonneg v) (qBound_le_one v)

theorem fillAlpha_bounds (w : OverlayWindow)
    (h0 : 0 ≤ w.m_opacity) (h1 : w.m_opacity ≤ 1) :
    (w.fillAlpha : ℚ) ≤ MAX_OPACITY * 255 ∧ w.fillAlpha < 255 := by
  have hM : (0 : ℚ) ≤ MAX_OPACITY := by norm_num [MAX_OPACITY]
  have hx0 : (0 : ℚ) ≤ w.m_opacity * MAX_OPACITY * 255 := by positivity
  have hxle : w.m_opacity * MAX_OPACITY * 255 ≤ MAX_OPACITY * 255 :=
    mul_le_mul_of_nonneg_right (mul_le_of_le_one_left hM h1) (by norm_num)
  have hfa : w.fillAlpha = ⌊w.m_opacity * MAX_OPACITY * 255⌋ := by
    simp only [OverlayWindow.fillAlpha, OverlayWindow.paintEvent, truncInt, if_pos hx0]
  constructor
  · rw [hfa]
    exact le_trans (Int.floor_le _) hxle
  · rw [hfa]
    refine Int.floor_lt.mpr (lt_of_le_of_lt hxle ?_)
    norm_num [MAX_OPACITY]

/-- C8: after any sequence of setOpacity calls with any real values, the
computed 8-bit fill alpha is at most 0.85 * 255 and strictly below 255: the
overlay is never fully opaque. -/
theorem C8_never_fully_opaque (scr : Screen) (levels : List ℚ) :
    ((List.foldl OverlayWindow.setOpacity (OverlayWindow.create scr) levels).fillAlpha : ℚ)
      ≤ MAX_OPACITY * 255
    ∧ (List.foldl OverlayWindow.setOpacity (OverlayWindow.create scr) levels).fillAlpha
      < 255 := by
  have hmem := foldl_opacity_mem levels (OverlayWindow.create scr) (le_refl 0) zero_le_one
  exact fillAlpha_bounds _ hmem.1 hmem.2

/-- C9: setOpacity is idempotent: calling it twice with the same value leaves
the window in the same observable state (same stored level, same fill alpha)
as calling it once, with no error for out-of-range input. -/
theorem C9_setOpacity_idempotent (w : OverlayWindow) (value : ℚ) :
    (w.setOpacity value).setOpacity value = w.setOpacity value
    ∧ ((w.setOpacity value).setOpacity value).fillAlpha = (w.setOpacity value).fillAlpha := by
  have h1 : (w.setOpacity value).setOpacity value = w.setOpacity value := rfl
  exact ⟨h1, by rw [h1]⟩

theorem handleLine_set_opacity (parse : String → Option Json) (line : String)
    (ws : List OverlayWindow) (fields : List (String × Json))
    (h1 : line.isEmpty = false)
    (h2 : parse line = some (Json.obj fields))
    (h3 : jsonToString (objGet fields "cmd") = "set_opacity") :
    handleLine parse line ws =
      { windows := ws.map (fun w => w.setOpacity (jsonToDouble (objGet fields "value"))),
        quitRequested := false, output := [] } := by
  simp [handleLine, h1, h2, docObject, h3]

theorem map_setOpacity_zero_ne :
    ∀ ws : List OverlayWindow, (∃ w ∈ ws, w.m_opacity ≠ 0) →
      ws.map (fun w => w.setOpacity 0) ≠ ws := by
  intro ws
  induction ws with
  | nil =>
    rintro ⟨w, hw, _⟩
    exact absurd hw (List.not_mem_nil w)
  | cons a as ih =>
    rintro ⟨w, hw, hne⟩ heq
    injection heq with hhead htail
    rcases List.mem_cons.mp hw with rfl | hw2
    · have h0 : w.m_opacity = 0 := by
        conv_lhs => rw [← hhead]
        show qBound 0 0 1 = 0
        rw [qBound_eq_self le_rfl zero_le_one]
      exact hne h0
    · exact ih ⟨w, hw2, hne⟩ htail

/-- C3: a set_opacity command line broadcasts setOpacity(value) to every
window in the collection: the resulting list is the map of setOpacity over
the old list, no window is skipped (length preserved), and afterwards every
window stores the same dimming level. -/
theorem C3_set_opacity_broadcast (parse : String → Option Json) (line : String)
    (ws : List OverlayWindow) (fields : List (String × Json))
    (h1 : line.isEmpty = false)
    (h2 : parse line = some (Json.obj fields))
    (h3 : jsonToString (objGet fields "cmd") = "set_opacity") :
    (handleLine parse line ws).windows
      = ws.map (fun w => w.setOpacity (jsonToDouble (objGet fields "value")))
    ∧ (handleLine parse line ws).windows.length = ws.length
    ∧ ∀ w ∈ (handleLine parse line ws).windows,
        w.m_opacity = qBound 0 (jsonToDouble (objGet fields "value")) 1 := by
  rw [handleLine_set_opacity parse line ws fields h1 h2 h3]
  refine ⟨rfl, by simp, ?_⟩
  intro w hw
  rcases List.mem_map.mp hw with ⟨w0, _, rfl⟩
  rfl

/-- C3 witness: a concrete set_opacity line applied to two windows. -/
theorem C3_set_opacity_broadcast_witness :
    (handleLine
        (fun _ => some (Json.obj [("cmd", Json.str "set_opacity"), ("value", Json.num (1/2))]))
        "c" [OverlayWindow.create ⟨"DP-1"⟩, OverlayWindow.create ⟨"HDMI-1"⟩]).windows
      = [OverlayWindow.create ⟨"DP-1"⟩, OverlayWindow.create ⟨"HDMI-1"⟩].map
          (fun w => w.setOpacity (jsonToDouble (objGet
            [("cmd", Json.str "set_opacity"), ("value", Json.num (1/2))] "value"))) :=
  (C3_set_opacity_broadcast
      (fun _ => some (Json.obj [("cmd", Json.str "set_opacity"), ("value", Json.num (1/2))]))
      "c" [OverlayWindow.create ⟨"DP-1"⟩, OverlayWindow.create ⟨"HDMI-1"⟩]
      [("cmd", Json.str "set_opacity"), ("value", Json.num (1/2))]
      rfl rfl rfl).1

/-- C6: an empty line, an invalid-JSON line, a JSON object without cmd, and a
JSON object with an unrecognized cmd value each leave every window unchanged,
produce no output, request no quit, and the loop goes on to the next line. -/
theorem C6_malformed_line_ignored (parse : String → Option Json) (line : String)
    (ws : List OverlayWindow) (ls : List String)
    (h : line.isEmpty = true
      ∨ parse line = none
      ∨ objGet (docObject (parse line)) "cmd" = none
      ∨ (jsonToString (objGet (docObject (parse line)) "cmd") ≠ "set_opacity"
          ∧ jsonToString (objGet (docObject (parse line)) "cmd") ≠ "quit")) :
    handleLine parse line ws = { windows := ws, quitRequested := false, output := [] }
    ∧ processLines parse (line :: ls) ws = processLines parse ls ws := by
  have hstep : handleLine parse line ws
      = { windows := ws, quitRequested := false, output := [] } := by
    by_cases he : line.isEmpty
    · simp [handleLine, he]
    · have he2 : line.isEmpty = false := by simpa using he
      have hact : jsonToString (objGet (docObject (parse line)) "cmd") ≠ "set_opacity"
          ∧ jsonToString (objGet (docObject (parse line)) "cmd") ≠ "quit" := by
        rcases h with h | h | h | h
        · rw [he2] at h
          exact absurd h (by simp)
        · rw [h]
          constructor <;> simp [docObject, objGet, jsonToString]
        · rw [h]
          constructor <;> simp [jsonToString]
        · exact h
      simp [handleLine, he2, hact.1, hact.2]
  refine ⟨hstep, ?_⟩
  simp [processLines, hstep]

/-- C6 witness: an invalid-JSON line is a no-op. -/
theorem C6_malformed_line_ignored_witness :
    handleLine (fun _ => none) "x" [OverlayWindow.create ⟨"DP-1"⟩]
      = { windows := [OverlayWindow.create ⟨"DP-1"⟩], quitRequested := false,
          output := [] } :=
  (C6_malformed_line_ignored (fun _ => none) "x" [OverlayWindow.create ⟨"DP-1"⟩] []
      (Or.inr (Or.inl rfl))).1

/-- C7: a quit command line requests termination of the event loop, and no
line after it is read or processed, whatever input is still pending: the
command trace ends at the quit event and the window list is left as it was. -/
theorem C7_quit_terminates (parse : String → Option Json) (lq : String)
    (rest : List String) (ws : List OverlayWindow) (fields : List (String × Json))
    (h1 : lq.isEmpty = false)
    (h2 : parse lq = some (Json.obj fields))
    (h3 : jsonToString (objGet fields "cmd") = "quit") :
    (handleLine parse lq ws).quitRequested = true
    ∧ commandTrace parse (lq :: rest) ws = [Event.processedCommand lq, Event.quitted]
    ∧ processLines parse (lq :: rest) ws = ws := by
  have hstep : handleLine parse lq ws
      = { windows := ws, quitRequested := true, output := [] } := by
    simp [handleLine, h1, h2, docObject, h3]
  refine ⟨by rw [hstep], ?_, ?_⟩
  · simp [commandTrace, hstep]
  · simp [processLines, hstep]

/-- C7 witness: a concrete quit line with a pending line after it. -/
theorem C7_quit_terminates_witness :
    commandTrace (fun _ => some (Json.obj [("cmd", Json.str "quit")])) ["q", "z"]
        [OverlayWindow.create ⟨"DP-1"⟩]
      = [Event.processedCommand "q", Event.quitted] :=
  (C7_quit_terminates (fun _ => some (Json.obj [("cmd", Json.str "quit")])) "q" ["z"]
      [OverlayWindow.create ⟨"DP-1"⟩] [("cmd", Json.str "quit")] rfl rfl rfl).2.1

/-- C10: a set_opacity line whose value field is missing or non-numeric is
still applied, with value 0: every window's dimming level becomes 0, and when
some window had a nonzero level this is an observable state change, not a
no-op. -/
theorem C10_missing_value_sets_zero (parse : String → Option Json) (line : String)
    (ws : List OverlayWindow) (fields : List (String × Json))
    (h1 : line.isEmpty = false)
    (h2 : parse line = some (Json.obj fields))
    (h3 : jsonToString (objGet fields "cmd") = "set_opacity")
    (h4 : ∀ q : ℚ, objGet fields "value" ≠ some (Json.num q)) :
    (handleLine parse line ws).windows = ws.map (fun w => w.setOpacity 0)
    ∧ (∀ w ∈ (handleLine parse line ws).windows, w.m_opacity = 0)
    ∧ ((∃ w ∈ ws, w.m_opacity ≠ 0) → (handleLine parse line ws).windows ≠ ws) := by
  have hv : jsonToDouble (objGet fields "value") = 0 := by
    cases hov : objGet fields "value" with
    | none => rfl
    | some j =>
      cases j with
      | num q => exact absurd hov (h4 q)
      | null => rfl
      | bool b => rfl
      | str s => rfl
      | arr xs => rfl
      | obj fs => rfl
  have hstep := handleLine_set_opacity parse line ws fields h1 h2 h3
  rw [hv] at hstep
  rw [hstep]
  refine ⟨rfl, ?_, ?_⟩
  · intro w hw
    rcases List.mem_map.mp hw with ⟨w0, _, rfl⟩
    show qBound 0 0 1 = 0
    rw [qBound_eq_self le_rfl zero_le_one]
  · exact map_setOpacity_zero_ne ws

/-- C10 witness: a set_opacity line with no value field zeroes a window that
was at level 1/2. -/
theorem C10_missing_value_sets_zero_witness :
    (handleLine (fun _ => some (Json.obj [("cmd", Json.str "set_opacity")])) "c"
        [{ screenName := "DP-1", m_opacity := 1/2 }]).windows
      = [{ screenName := "DP-1", m_opacity := 1/2 : OverlayWindow }].map
          (fun w => w.setOpacity 0) :=
  (C10_missing_value_sets_zero (fun _ => some (Json.obj [("cmd", Json.str "set_opacity")]))
      "c" [{ screenName := "DP-1", m_opacity := 1/2 }] [("cmd", Json.str "set_opacity")]
      rfl rfl rfl
      (by intro q hq; simp [objGet, List.find?] at hq)).1

theorem commandTrace_mem (parse : String → Option Json) :
    ∀ (ls : List String) (ws : List OverlayWindow) (e : Event),
      e ∈ commandTrace parse ls ws →
        Event.isCommand e = true ∧ Event.isReady e = false := by
  intro ls
  induction ls with
  | nil =>
    intro ws e h
    simp [commandTrace] at h
  | cons l ls ih =>
    intro ws e h
    simp only [commandTrace] at h
    split at h
    · rcases List.mem_cons.mp h with rfl | h2
      · exact ⟨rfl, rfl⟩
      · rw [List.mem_singleton] at h2
        subst h2
        exact ⟨rfl, rfl⟩
    · rcases List.mem_cons.mp h with rfl | h2
      · exact ⟨rfl, rfl⟩
      · exact ih (handleLine parse l ws).windows e h2

theorem filter_isReady_nil :
    ∀ tr : List Event, (∀ e ∈ tr, Event.isReady e = false) →
      tr.filter Event.isReady = [] := by
  intro tr
  induction tr with
  | nil => intro _; rfl
  | cons a l ih =>
    intro h
    rw [List.filter_cons, h a (List.mem_cons_self a l)]
    simpa using ih (fun e he => h e (List.mem_cons_of_mem a he))

/-- C4: in every run trace, the readiness notice appears exactly once, its
monitor list is exactly the screen names in enumeration order, every surface
creation precedes it, and every command-phase event follows it. -/
theorem C4_readiness_once_ordered (screens : List Screen)
    (parse : String → Option Json) (lines : List String) :
    (runTrace screens parse lines).filter Event.isReady
        = [Event.emittedReady (screens.map Screen.name)]
    ∧ ∃ post : List Event,
        runTrace screens parse lines
          = screens.map (fun s => Event.createdSurface s.name)
              ++ Event.emittedReady (screens.map Screen.name) :: post
        ∧ ∀ e ∈ post, Event.isCommand e = true := by
  constructor
  · rw [runTrace, List.filter_append, List.filter_cons]
    rw [filter_isReady_nil _ (by
      intro e he
      rcases List.mem_map.mp he with ⟨s, _, rfl⟩
      rfl)]
    rw [filter_isReady_nil _ (fun e he => (commandTrace_mem parse lines _ e he).2)]
    simp [Event.isReady]
  · exact ⟨commandTrace parse lines (startupWindows screens), rfl,
      fun e he => (commandTrace_mem parse lines _ e he).1⟩

/-- C4 witness: a concrete two-screen run with one malformed command line. -/
theorem C4_readiness_once_ordered_witness :
    (runTrace [⟨"DP-1"⟩, ⟨"HDMI-1"⟩] (fun _ => none) ["x"]).filter Event.isReady
      = [Event.emittedReady (([⟨"DP-1"⟩, ⟨"HDMI-1"⟩] : List Screen).map Screen.name)] :=
  (C4_readiness_once_ordered [⟨"DP-1"⟩, ⟨"HDMI-1"⟩] (fun _ => none) ["x"]).1

/-- C5 counterexample: with displays DP-1 and HDMI-1 the readiness line is
not the claimed string with the status field first, because QJsonObject
serializes its keys in alphabetical order. -/
theorem C5_ready_line_counterexample :
    readyLine ["DP-1", "HDMI-1"]
      ≠ "\x7b\"status\":\"ready\",\"monitors\":[\"DP-1\",\"HDMI-1\"]\x7d\n" := by
  simp [readyLine, readyObject, objInsert, Json.ser, Json.serFields, Json.serElems,
    escapeStr, escapeChar, String.singleton]
  decide

/-- C5 amended: the readiness line is one line of compact JSON holding
exactly the status and monitors fields with the keys in alphabetical order
(monitors before status, since QJsonObject stores keys sorted), followed by a
newline: for displays DP-1 and HDMI-1 it is
\x7b"monitors":["DP-1","HDMI-1"],"status":"ready"\x7d. -/
theorem C5_ready_line (names : List String) :
    readyLine ["DP-1", "HDMI-1"]
      = "\x7b\"monitors\":[\"DP-1\",\"HDMI-1\"],\"status\":\"ready\"\x7d\n"
    ∧ readyObject names
      = [("monitors", Json.arr (names.map Json.str)), ("status", Json.str "ready")] := by
  constructor
  · simp [readyLine, readyObject, objInsert, Json.ser, Json.serFields, Json.serElems,
      escapeStr, escapeChar, String.singleton]
    rfl
  · simp only [readyObject, objInsert]
    rw [if_neg (by simp), if_pos (by simp; decide)]

/-- C2 witness: instantiated at value 1/2, the fill alpha is 108. -/
theorem C2_fill_alpha_witness :
    ((OverlayWindow.create ⟨"DP-1"⟩).setOpacity (1/2)).fillAlpha
      = truncInt ((1/2) * MAX_OPACITY * 255)
    ∧ ((OverlayWindow.create ⟨"DP-1"⟩).setOpacity (1/2)).fillAlpha = 108 :=
  ⟨(C2_fill_alpha (OverlayWindow.create ⟨"DP-1"⟩) (1/2) (by norm_num) (by norm_num)).2.2.1,
   (C2_fill_alpha (OverlayWindow.create ⟨"DP-1"⟩) (1/2) (by norm_num) (by norm_num)).2.2.2.1⟩
